import Mathlib

/-!
Verification of the teaching notebooks repository (clustering exercises and
the sunspot-number forecasting tutorial).  The notebooks are embedded
shallowly: each cell's data transformations become Lean definitions over
lists of rationals, fallible library calls become `Except`/`Option` values,
and the claims of the specification are settled as theorems about those
definitions.
-/

/- ## Sunspot tutorial: CSV loader (`pd.read_csv`) -/

/-- Configuration passed to the CSV reader: separator, header policy and
column names, mirroring the keyword arguments of the `pd.read_csv` call
(the one-character separator string is embedded as a character). -/
structure ReadCsvConfig where
  sep : Char
  hdr : Option Nat
  names : List String
deriving DecidableEq

/-- The single input file read by the time-series notebook. -/
def ssDataFile : String := "SN_m_tot_V2.0.csv"

/-- The seven column names, in the order given in the `pd.read_csv` call. -/
def ssDataColumns : List String :=
  ["Year", "Month", "Date in fraction of year", "Monthly mean",
   "Monthly standard deviation", "Number of observations",
   "Definitive/provisional marker"]

/-- The reader configuration of the notebook:
`sep=";", header=None, names=ssDataColumns`. -/
def ssDataConfig : ReadCsvConfig := ⟨';', none, ssDataColumns⟩

/-- One record of the sunspot table, fields in column order. -/
structure SsRow where
  year : ℚ
  month : ℚ
  dateFrac : ℚ
  monthlyMean : ℚ
  monthlyStd : ℚ
  nObs : ℚ
  defProv : ℚ
deriving DecidableEq

/-- Field splitting on a separator character, with the semantics of
splitting a delimited line: the empty text yields one empty field, and
every separator occurrence opens a new field. -/
def splitOnChar (sep : Char) : List Char → List (List Char)
  | [] => [[]]
  | c :: cs =>
    let rest := splitOnChar sep cs
    if c = sep then [] :: rest
    else
      match rest with
      | [] => [[c]]
      | f :: fs => (c :: f) :: fs

/-- Digits of a numeric field interpreted in base ten; `none` on empty input
or any non-digit character. -/
def parseDigits : List Char → Option ℕ
  | [] => none
  | cs =>
    cs.foldl
      (fun acc c =>
        acc.bind (fun n => if c.isDigit then some (10 * n + (c.toNat - 48)) else none))
      (some 0)

/-- Numeric conversion of one CSV field (optional minus sign, optional
decimal point), failing like `float()` does on malformed text. -/
def parseNum (cs : List Char) : Except String ℚ :=
  let (sign, body) : ℚ × List Char :=
    match cs with
    | '-' :: rest => (-1, rest)
    | _ => (1, cs)
  match (splitOnChar '.' body).map parseDigits with
  | [some n] => Except.ok (sign * n)
  | [some n, some f] =>
      Except.ok (sign * ((n : ℚ) + (f : ℚ) / (10 : ℚ) ^ ((splitOnChar '.' body).getLast!).length))
  | _ => Except.error ("could not convert string to float: " ++ String.mk cs)

/-- Assembly of one table record from the parsed fields of a line: exactly
seven fields, assigned to the named columns in order. -/
def parseRow (fields : List ℚ) : Except String SsRow :=
  match fields with
  | [y, m, d, mm, ms, n, p] => Except.ok ⟨y, m, d, mm, ms, n, p⟩
  | _ => Except.error ("expected 7 fields")

/-- One line of the file: split on the configured separator, convert each
field, build the record. -/
def parseLine (line : String) : Except String SsRow :=
  (splitOnChar ssDataConfig.sep line.data).mapM parseNum >>= parseRow

/-- The CSV reader: with `header=None` every line of the file, the first
included, is parsed as a data row. -/
def read_csv (content : List String) : Except String (List SsRow) :=
  content.mapM parseLine

theorem read_csv_cons (l : String) (ls : List String) :
    read_csv (l :: ls) =
      (parseLine l).bind (fun r => (read_csv ls).map (fun rs => r :: rs)) := by
  simp only [read_csv, List.mapM_cons]
  cases parseLine l with
  | error e => rfl
  | ok r =>
    cases (ls.mapM parseLine) with
    | error e => rfl
    | ok rs => rfl

/-- Claim C1: the time-series loader reads exactly one semicolon-delimited
text file with a fixed 7-column schema: the file name is fixed, the
separator is `;`, there is no header row (every line including the first is
a data row), and the seven named columns are bound in the given order. -/
theorem csv_loader_schema :
    ssDataFile = "SN_m_tot_V2.0.csv" ∧
    ssDataConfig.sep = ';' ∧
    ssDataConfig.hdr = none ∧
    ssDataConfig.names = ssDataColumns ∧
    ssDataConfig.names.length = 7 ∧
    (∀ y m d mm ms n p : ℚ,
      parseRow [y, m, d, mm, ms, n, p] =
        Except.ok { year := y, month := m, dateFrac := d, monthlyMean := mm,
                    monthlyStd := ms, nObs := n, defProv := p }) ∧
    (∀ (l : String) (ls : List String),
      read_csv (l :: ls) =
        (parseLine l).bind (fun r => (read_csv ls).map (fun rs => r :: rs))) :=
  ⟨rfl, rfl, rfl, rfl, rfl, fun _ _ _ _ _ _ _ => rfl, read_csv_cons⟩

/- ## Sunspot tutorial: column extraction and standardization -/

/-- Code `time = ss_data["Date in fraction of year"].to_numpy()`. -/
def timeCol (rows : List SsRow) : List ℚ := rows.map SsRow.dateFrac

/-- Code `ss_number = ss_data["Monthly mean"].to_numpy()`. -/
def ssNumberCol (rows : List SsRow) : List ℚ := rows.map SsRow.monthlyMean

/-- Claim C7: the extracted time array and value array are aligned: equal
length, and the entries at every index are the two projections of the same
row of the input table. -/
theorem time_value_aligned (rows : List SsRow) :
    (timeCol rows).length = (ssNumberCol rows).length ∧
    ∀ i : ℕ,
      (timeCol rows).get? i = (rows.get? i).map SsRow.dateFrac ∧
      (ssNumberCol rows).get? i = (rows.get? i).map SsRow.monthlyMean := by
  refine ⟨by simp [timeCol, ssNumberCol], fun i => ⟨?_, ?_⟩⟩ <;>
    simp [timeCol, ssNumberCol]

/-- Empirical mean of a column, as computed by `StandardScaler`. -/
def listMean (xs : List ℚ) : ℚ := xs.sum / xs.length

/-- Population variance of a column (`ddof = 0`), as computed by
`StandardScaler`. -/
def listVar (xs : List ℚ) : ℚ :=
  ((xs.map (fun x => (x - listMean xs) ^ 2)).sum) / xs.length

/-- The state stored by a fitted `StandardScaler`: the column mean and the
scale (standard deviation). -/
structure FittedScaler where
  mean : ℝ
  scale : ℝ

/-- Code `ss = StandardScaler(); ss.fit(col)`: record the mean and the standard
deviation of the fitted column. -/
noncomputable def standardScalerFit (xs : List ℚ) : FittedScaler :=
  ⟨(listMean xs : ℝ), Real.sqrt ((listVar xs : ℝ))⟩

/-- Code `ss.transform`: center by the stored mean and divide by the stored
scale. -/
noncomputable def FittedScaler.transform (s : FittedScaler) (x : ℝ) : ℝ :=
  (x - s.mean) / s.scale

/-- The scaler of the notebook, fitted once on the time column. -/
noncomputable def ssFitted (rows : List SsRow) : FittedScaler :=
  standardScalerFit (timeCol rows)

/-- Code `time_ss = ss.transform(time.reshape(-1,1))`. -/
noncomputable def time_ss (rows : List SsRow) : List ℝ :=
  (timeCol rows).map (fun x => (ssFitted rows).transform (x : ℝ))

/-- Code `np.linspace(a, b, n)`. -/
def linspace (a b : ℚ) (n : ℕ) : List ℚ :=
  (List.range n).map (fun i => a + (b - a) * i / (n - 1))

/-- Code `inf = np.linspace(1600, 2200, 1000)`: the inference grid. -/
def infGrid : List ℚ := linspace 1600 2200 1000

/-- Code `inf_ss = ss.transform(inf.reshape(-1,1))`: the same fitted scaler
applied to the inference grid. -/
noncomputable def inf_ss (rows : List SsRow) : List ℝ :=
  infGrid.map (fun x => (ssFitted rows).transform (x : ℝ))

/-- The target series passed to `svr.fit(time_ss, ss_number)` and
`krr.fit(time_ss, ss_number)`: the raw monthly-mean column. -/
def fitTarget (rows : List SsRow) : List ℚ := ssNumberCol rows

/-- Claim C3: the preprocessor standardizes exactly the time column with a
fit-then-transform pattern: `transform` maps each value `x` to
`(x - mean(time)) / std(time)`, the target column reaches the fit calls as
the raw extracted column with no scaling, and the identical fitted
transform (same mean and standard deviation of the time column) is applied
to the inference grid. -/
theorem scaler_fit_transform (rows : List SsRow) :
    time_ss rows = (timeCol rows).map
      (fun x => ((x : ℝ) - (listMean (timeCol rows) : ℝ)) /
        Real.sqrt ((listVar (timeCol rows) : ℝ))) ∧
    fitTarget rows = rows.map SsRow.monthlyMean ∧
    inf_ss rows = infGrid.map
      (fun x => ((x : ℝ) - (listMean (timeCol rows) : ℝ)) /
        Real.sqrt ((listVar (timeCol rows) : ℝ))) :=
  ⟨rfl, rfl, rfl⟩

/- ## Sunspot tutorial: the fully-connected network -/

/-- Inner product of a weight row with the input. -/
def dot (ws xs : List ℚ) : ℚ := (List.zipWith (fun a b => a * b) ws xs).sum

/-- An `nn.Linear` layer: a weight matrix (one row per output unit) and a
bias vector. -/
structure Linear where
  weight : List (List ℚ)
  bias : List ℚ

/-- Application of a linear layer: each output unit is the inner product of
its weight row with the input, plus its bias. -/
def Linear.apply (l : Linear) (x : List ℚ) : List ℚ :=
  List.zipWith (fun w b => dot w x + b) l.weight l.bias

/-- Code `F.relu`, elementwise `max(0, x)`. -/
def relu (x : ℚ) : ℚ := max 0 x

/-- The network of the notebook: `fc1 = nn.Linear(135, 1000)`,
`fc1b = nn.Linear(1000, 1000)`, `fc2 = nn.Linear(1000, 135)`. -/
structure FCN where
  fc1 : Linear
  fc1b : Linear
  fc2 : Linear

/-- A layer has the given output and input dimensions. -/
def Linear.hasShape (l : Linear) (outDim inDim : ℕ) : Prop :=
  l.weight.length = outDim ∧ l.bias.length = outDim ∧
    ∀ w ∈ l.weight, w.length = inDim

/-- The shapes declared in `FCN.__init__`. -/
def FCN.wellFormed (f : FCN) : Prop :=
  f.fc1.hasShape 1000 135 ∧ f.fc1b.hasShape 1000 1000 ∧ f.fc2.hasShape 135 1000

/-- Code `FCN.forward`: ReLU after the first and second linear layers, no
nonlinearity after the third. -/
def FCN.forward (f : FCN) (x : List ℚ) : List ℚ :=
  f.fc2.apply ((f.fc1b.apply ((f.fc1.apply x).map relu)).map relu)

theorem Linear.apply_length (l : Linear) (x : List ℚ) :
    (l.apply x).length = min l.weight.length l.bias.length := by
  simp [Linear.apply]

/-- Claim C2: `FCN.forward` is exactly three linear layers with ReLU after
the first and second and none after the third; the hidden activations have
width 1000 and every length-135 input is mapped to a length-135 output. -/
theorem fcn_forward_shape (f : FCN) (hf : f.wellFormed) (x : List ℚ)
    (_hx : x.length = 135) :
    f.forward x =
      f.fc2.apply ((f.fc1b.apply ((f.fc1.apply x).map relu)).map relu) ∧
    (f.fc1.apply x).length = 1000 ∧
    (f.fc1b.apply ((f.fc1.apply x).map relu)).length = 1000 ∧
    (f.forward x).length = 135 := by
  obtain ⟨⟨h1w, h1b, -⟩, ⟨h2w, h2b, -⟩, ⟨h3w, h3b, -⟩⟩ := hf
  refine ⟨rfl, ?_, ?_, ?_⟩ <;>
    simp [FCN.forward, Linear.apply_length, h1w, h1b, h2w, h2b, h3w, h3b]

/-- A zero-initialized network with the declared shapes. -/
def zeroFCN : FCN :=
  ⟨⟨List.replicate 1000 (List.replicate 135 0), List.replicate 1000 0⟩,
   ⟨List.replicate 1000 (List.replicate 1000 0), List.replicate 1000 0⟩,
   ⟨List.replicate 135 (List.replicate 1000 0), List.replicate 135 0⟩⟩

theorem zeroFCN_wellFormed : zeroFCN.wellFormed := by
  refine ⟨⟨?_, ?_, ?_⟩, ⟨?_, ?_, ?_⟩, ⟨?_, ?_, ?_⟩⟩
  · exact List.length_replicate 1000 _
  · exact List.length_replicate 1000 _
  · intro w hw
    rw [List.eq_of_mem_replicate hw]
    exact List.length_replicate 135 _
  · exact List.length_replicate 1000 _
  · exact List.length_replicate 1000 _
  · intro w hw
    rw [List.eq_of_mem_replicate hw]
    exact List.length_replicate 1000 _
  · exact List.length_replicate 135 _
  · exact List.length_replicate 135 _
  · intro w hw
    rw [List.eq_of_mem_replicate hw]
    exact List.length_replicate 1000 _

/-- Witness for C2: the shape theorem applied to the zero-initialized
network on the zero input of length 135. -/
theorem fcn_forward_shape_witness :
    (zeroFCN.forward (List.replicate 135 0)).length = 135 :=
  (fcn_forward_shape zeroFCN zeroFCN_wellFormed
    (List.replicate 135 0) (List.length_replicate 135 _)).2.2.2

/- ## Sunspot tutorial: training configuration and loop -/

/-- Code `n_epochs = 100`. -/
def n_epochs : ℕ := 100

/-- Code `lr = 0.005`. -/
def lr : ℚ := 5 / 1000

/-- The state of an Adam optimizer instance as far as the notebook
configures it: the learning rate it was constructed with. -/
structure AdamConfig where
  rate : ℚ
deriving DecidableEq

/-- Code `optim.Adam(fcn.parameters(), lr=r)`. -/
def adamCreate (r : ℚ) : AdamConfig := ⟨r⟩

/-- Code `optimiser = optim.Adam(fcn.parameters(), lr=lr)`: the one optimizer
instance, created in the cell preceding the training loop. -/
def optimiser : AdamConfig := adamCreate lr

/-- Code `for j in range(n_epochs): ...`: the training loop folds the epoch body
over the epoch indices `0, …, n_epochs - 1` and then stops. -/
def trainingLoop {σ : Type} (body : ℕ → σ → σ) (init : σ) : σ :=
  (List.range n_epochs).foldl (fun s j => body j s) init

theorem foldl_count {σ : Type} (body : ℕ → σ → σ) :
    ∀ (l : List ℕ) (s : σ) (c : ℕ),
      (l.foldl (fun p j => (body j p.1, p.2 + 1)) (s, c)).2 = c + l.length := by
  intro l
  induction l with
  | nil => intro s c; simp
  | cons j t ih =>
    intro s c
    rw [List.foldl_cons]
    rw [ih (body j s) (c + 1)]
    simp [Nat.add_comm, Nat.add_assoc, Nat.add_left_comm]

/-- Claim C4: training runs for a fixed number of epochs with a fixed
optimizer: `n_epochs = 100`, the single optimizer instance is the Adam
configuration with learning rate `0.005` created before the loop, and for
every epoch body the loop executes it exactly 100 times and stops. -/
theorem training_fixed_epochs :
    n_epochs = 100 ∧
    optimiser = adamCreate lr ∧
    optimiser.rate = 5 / 1000 ∧
    ∀ (σ : Type) (body : ℕ → σ → σ) (init : σ),
      (trainingLoop (fun j s => (body j s.1, s.2 + 1)) (init, 0)).2 = 100 := by
  refine ⟨rfl, rfl, rfl, fun σ body init => ?_⟩
  rw [trainingLoop, foldl_count body (List.range n_epochs) init 0]
  simp [n_epochs]

/- ## Sunspot tutorial: the train/validation split -/

/-- Code `arr.reshape(r, -1)`: split a flat array into `r` equal rows; fails, as
numpy does, when the array is empty or its length is not divisible by
`r`. -/
def reshapeRows (r : ℕ) (xs : List ℚ) : Option (List (List ℚ)) :=
  if xs.length ≠ 0 ∧ xs.length % r = 0 then
    some ((List.range r).map
      (fun i => (xs.drop (i * (xs.length / r))).take (xs.length / r)))
  else none

/-- Code `times_rs = time_ss[8:].reshape(24, -1)` (and identically
`ss_number_rs = ss_number[8:].reshape(24, -1)`): drop the first 8 samples
and reshape the remainder into 24 rows. -/
def reshapeSeries (xs : List ℚ) : Option (List (List ℚ)) :=
  reshapeRows 24 (xs.drop 8)

/-- Code `[:-2]`: all windows but the last two — the training set of
`TensorDataset(torch.from_numpy(times_rs)[:-2], ...)`. -/
def allButLastTwo (ws : List (List ℚ)) : List (List ℚ) :=
  ws.take (ws.length - 2)

/-- Code `[-2:]`: the last two windows — the validation set of
`TensorDataset(torch.from_numpy(times_rs)[-2:], ...)`. -/
def lastTwo (ws : List (List ℚ)) : List (List ℚ) :=
  ws.drop (ws.length - 2)

/-- Claim C9: on the 3248-sample series the split is a partition: the first
8 samples are dropped, the remainder reshapes into 24 windows of 135
samples, the training set is exactly the first 22 windows, the validation
set exactly the last 2, and their concatenation restores all 24 windows. -/
theorem train_val_partition (xs : List ℚ) (h : xs.length = 3248) :
    ∃ ws, reshapeSeries xs = some ws ∧ ws.length = 24 ∧
      (∀ w ∈ ws, w.length = 135) ∧
      allButLastTwo ws = ws.take 22 ∧ lastTwo ws = ws.drop 22 ∧
      (allButLastTwo ws).length = 22 ∧ (lastTwo ws).length = 2 ∧
      allButLastTwo ws ++ lastTwo ws = ws := by
  have hlen : (xs.drop 8).length = 3240 := by simp [h]
  have hdiv : (3240 : ℕ) / 24 = 135 := by norm_num
  refine ⟨(List.range 24).map (fun i => ((xs.drop 8).drop (i * 135)).take 135),
    ?_, by simp, ?_, ?_, ?_, ?_, ?_, ?_⟩
  · unfold reshapeSeries reshapeRows
    rw [hlen, hdiv, if_pos (by norm_num : (3240 : ℕ) ≠ 0 ∧ (3240 : ℕ) % 24 = 0)]
  · intro w hw
    simp only [List.mem_map, List.mem_range] at hw
    obtain ⟨i, hi, rfl⟩ := hw
    have hd : ((xs.drop 8).drop (i * 135)).length = 3240 - i * 135 := by
      simp only [List.length_drop, h]
    rw [List.length_take, hd]
    omega
  · rw [allButLastTwo]
    simp
  · rw [lastTwo]
    simp
  · rw [allButLastTwo]
    simp
  · rw [lastTwo]
    simp
  · exact List.take_append_drop _ _

/-- Witness for C9: the partition theorem applied to a concrete series of
3248 samples. -/
theorem train_val_partition_witness :
    ∃ ws, reshapeSeries (List.replicate 3248 (0 : ℚ)) = some ws ∧
      ws.length = 24 ∧
      (∀ w ∈ ws, w.length = 135) ∧
      allButLastTwo ws = ws.take 22 ∧ lastTwo ws = ws.drop 22 ∧
      (allButLastTwo ws).length = 22 ∧ (lastTwo ws).length = 2 ∧
      allButLastTwo ws ++ lastTwo ws = ws :=
  train_val_partition (List.replicate 3248 0) (List.length_replicate 3248 _)

/- ## Sunspot tutorial: epoch structure and the validation pass -/

/-- Code `nn.MSELoss()`: mean squared error of a prediction against a target. -/
def mseLoss (pred target : List ℚ) : ℚ :=
  ((List.zipWith (fun a b => (a - b) ^ 2) pred target).sum) / pred.length

/-- The state carried across one iteration of the epoch loop: the network
being trained and the validation losses printed at the end of the epoch. -/
structure EpochState where
  net : FCN
  valLosses : List ℚ

/-- The validation pass (`fcn.eval()` under `torch.no_grad()`, no
`optimiser.step()`): the network is only applied to the validation batches
to compute losses; nothing else is produced. -/
def valPass (net : FCN) (valData : List (List ℚ × List ℚ)) : List ℚ :=
  valData.map (fun b => mseLoss (net.forward b.1) b.2)

/-- One iteration of `for j in range(n_epochs)`: the training pass over the
training batches updates the network, then the validation pass computes
the losses of the updated network. -/
def epochStep (trainPass : FCN → FCN) (valData : List (List ℚ × List ℚ))
    (s : EpochState) : EpochState :=
  let trained := trainPass s.net
  ⟨trained, valPass trained valData⟩

/-- Claim C10: the validation phase of each epoch leaves the network's
parameters unchanged: after the whole epoch the network equals the result
of the training pass alone, for every training pass, validation set and
starting state. -/
theorem val_pass_frame (trainPass : FCN → FCN)
    (valData : List (List ℚ × List ℚ)) (s : EpochState) :
    (epochStep trainPass valData s).net = trainPass s.net := rfl

/- ## Sunspot tutorial: fault propagation -/

/-- The data-preparation pipeline of the notebook as the kernel runs it:
read the file (failing like `FileNotFoundError` when it is missing), parse
every line, extract the two columns, reshape both series for the network.
No cell of either notebook contains `try`/`except`, so every stage is a
match on the previous stage's outcome and the first failure is the final
outcome. -/
def prepStage (rows : List SsRow) :
    Except String (List (List ℚ) × List (List ℚ)) :=
  match reshapeSeries (timeCol rows), reshapeSeries (ssNumberCol rows) with
  | none, _ => Except.error ("cannot reshape array")
  | some _, none => Except.error ("cannot reshape array")
  | some t, some v => Except.ok (t, v)

def runPipeline (file : Option (List String)) :
    Except String (List (List ℚ) × List (List ℚ)) :=
  match file with
  | none => Except.error ("FileNotFoundError: " ++ ssDataFile)
  | some content =>
    match read_csv content with
    | Except.error e => Except.error e
    | Except.ok rows => prepStage rows

theorem runPipeline_some (content : List String) :
    runPipeline (some content) =
      match read_csv content with
      | Except.error e => Except.error e
      | Except.ok rows => prepStage rows := rfl

theorem read_csv_first_error (line e : String)
    (hline : parseLine line = Except.error e) :
    ∀ (pre suf : List String),
      (∀ l ∈ pre, ∃ r, parseLine l = Except.ok r) →
      read_csv (pre ++ line :: suf) = Except.error e := by
  intro pre
  induction pre with
  | nil =>
    intro suf _
    rw [List.nil_append, read_csv_cons, hline]
    rfl
  | cons l t ih =>
    intro suf hpre
    obtain ⟨r, hr⟩ := hpre l (List.mem_cons_self l t)
    have hrest : ∀ l2 ∈ t, ∃ r2, parseLine l2 = Except.ok r2 :=
      fun l2 h2 => hpre l2 (List.mem_cons_of_mem _ h2)
    rw [List.cons_append, read_csv_cons, hr, ih suf hrest]
    rfl

/-- Claim C8: no notebook operation catches, retries or recovers from a
fault: a missing file makes the pipeline end with the file error, a
malformed row makes it end with that row's conversion error with no later
stage running, and a shape mismatch in the reshape makes it end with the
reshape error. -/
theorem faults_propagate :
    runPipeline none = Except.error ("FileNotFoundError: " ++ ssDataFile) ∧
    (∀ (pre suf : List String) (line e : String),
      parseLine line = Except.error e →
      (∀ l ∈ pre, ∃ r, parseLine l = Except.ok r) →
      runPipeline (some (pre ++ line :: suf)) = Except.error e) ∧
    (∀ (content : List String) (rows : List SsRow),
      read_csv content = Except.ok rows →
      reshapeSeries (timeCol rows) = none →
      runPipeline (some content) = Except.error ("cannot reshape array")) := by
  refine ⟨rfl, ?_, ?_⟩
  · intro pre suf line e hline hpre
    have hrc := read_csv_first_error line e hline pre suf hpre
    rw [runPipeline_some, hrc]
  · intro content rows hrc hnone
    rw [runPipeline_some, hrc]
    show prepStage rows = Except.error ("cannot reshape array")
    unfold prepStage
    rw [hnone]

/-- Witness for C8: a malformed row halts the pipeline with the conversion
error, and an empty table, whose extracted series cannot be reshaped,
halts it with the reshape error. -/
theorem faults_propagate_witness :
    runPipeline (some (([] : List String) ++ "bad" :: [])) =
      Except.error ("could not convert string to float: bad") ∧
    runPipeline (some ([] : List String)) =
      Except.error ("cannot reshape array") :=
  ⟨faults_propagate.2.1 [] [] ("bad") ("could not convert string to float: bad")
      rfl (fun l hl => absurd hl (List.not_mem_nil l)),
   faults_propagate.2.2 [] [] rfl rfl⟩

/- ## Clustering notebook: data file and immutability -/

/-- Modelled from the spec: the packed-array file `data.npz` is binary data
absent from the source tree (only its loading cell and the README
description are present), so its contents are modelled from the spec
sentence "one packed-array file (two named numeric arrays)": a 400×10
sample matrix stored under the name `data` used by the loading cell. -/
def sampleMatrix : List (List ℚ) := List.replicate 400 (List.replicate 10 0)

/-- Modelled from the spec: the second named numeric array of the packed
file; the spec fixes only that exactly two named arrays are present, so
its name and contents are placeholders. -/
def secondArray : List (List ℚ) := List.replicate 400 (List.replicate 1 0)

/-- Modelled from the spec: the packed-array file as a name-indexed
collection of two numeric arrays. -/
def dataNpz : List (String × List (List ℚ)) :=
  [("data", sampleMatrix), ("labels", secondArray)]

/-- Code `np.load(...)[key]`: look an array up by name. -/
def npzItem (f : List (String × List (List ℚ))) (key : String) :
    Option (List (List ℚ)) :=
  (f.find? (fun e => e.1 == key)).map (fun e => e.2)

/-- Code `data = np.load("data.npz")["data"]`: the loading cell of the
clustering notebook. -/
def clusterData : Option (List (List ℚ)) := npzItem dataNpz ("data")

/-- Claim C5: the packed-array input file contains two named numeric
arrays, and the loading cell reads the sample matrix from it by the name
`data`. -/
theorem npz_two_arrays_load_by_name :
    dataNpz.length = 2 ∧ clusterData = some sampleMatrix :=
  ⟨rfl, rfl⟩

/-- The kinds of code cells of the clustering notebook. -/
inductive ClusterCell where
  | magicCell
  | importCell
  | loadCell
  | commentCell
  | plotCell
deriving DecidableEq

/-- Which cells assign the variable `data`: only the loading cell does. -/
def writesData : ClusterCell → Bool
  | ClusterCell.loadCell => true
  | _ => false

/-- The code cells of `Exercises.ipynb` in notebook order: the matplotlib
magic, the numpy/matplotlib imports, the loading cell, the PCA import,
a comment-only student cell, the `plt.bar` skeleton, a comment-only cell,
the scipy import, and four more comment-only student cells. -/
def clusterCells : List ClusterCell :=
  [ClusterCell.magicCell, ClusterCell.importCell, ClusterCell.loadCell,
   ClusterCell.importCell, ClusterCell.commentCell, ClusterCell.plotCell,
   ClusterCell.commentCell, ClusterCell.importCell, ClusterCell.commentCell,
   ClusterCell.commentCell, ClusterCell.commentCell, ClusterCell.commentCell]

/-- Claim C6: the sample matrix has fixed shape 400×10, it is assigned by
exactly one cell of the notebook — the loading cell, third in order — and
no later cell writes it. -/
theorem cluster_data_shape_immutable :
    sampleMatrix.length = 400 ∧
    sampleMatrix.map List.length = List.replicate 400 10 ∧
    (clusterCells.filter writesData).length = 1 ∧
    clusterCells.get? 2 = some ClusterCell.loadCell ∧
    (clusterCells.drop 3).filter writesData = [] := by
  refine ⟨?_, ?_, by decide, by decide, by decide⟩
  · simp only [sampleMatrix, List.length_replicate]
  · simp only [sampleMatrix, List.map_replicate, List.length_replicate]
